import Mathlib

/-!
Verification of the springer_downloader catalog core.

Strings are modelled as lists of characters (`Str`), so the Python string
operations used by the source (`str.split`, `str.join`, `str.translate`,
`str.maketrans`, substring containment) become structurally recursive list
functions.  The filesystem is a finite association list from paths to file
kinds, HTTP is a map from URLs to responses whose bodies are chunk streams
(with an optional user interrupt point), and each download produces an
explicit event trace (log records, network GETs, file writes, unlinks).
-/

namespace Springer

abbrev Str := List Char

def str (s : String) : Str := s.toList

/-! ### constants.py -/

inductive Language
  | english
  | german
deriving DecidableEq

def Language.value : Language → Str
  | .english => str "en"
  | .german => str "de"

inductive Topic
  | all_disciplines
  | emergency_nursing
deriving DecidableEq

def Topic.value : Topic → Str
  | .all_disciplines => str "all"
  | .emergency_nursing => str "med"

inductive FileFormat
  | pdf
  | epub
deriving DecidableEq

def FileFormat.value : FileFormat → Str
  | .pdf => str "pdf"
  | .epub => str "epub"

/-- `FileFormat.suffix`: a dot followed by the format value. -/
def FileFormat.suffix (f : FileFormat) : Str := '.' :: f.value

/-! ### urls.py -/

def SPRINGER_REST_URL : Str :=
  str "https://resource-cms.springernature.com/springer-cms/rest"

def SPRINGER_CATALOG_EN_URL : Str :=
  SPRINGER_REST_URL ++ str "/v1/content/17858272/data/v5"

def SPRINGER_CATALOG_DE_URL : Str :=
  SPRINGER_REST_URL ++ str "/v1/content/17863240/data/v2"

def SPRINGER_NURSING_CATALOG_DE_URL : Str :=
  SPRINGER_REST_URL ++ str "/v1/content/17856246/data/v3"

def SPRINGER_PDF_URL : Str := str "https://link.springer.com/content/pdf"

def SPRINGER_EPUB_URL : Str := str "https://link.springer.com/download/epub"

/-- The static `urls["catalogs"]` nested-dictionary lookup: `none` models the
`KeyError` raised for unregistered (language, topic) combinations. -/
def catalogs_url_table (l : Language) (t : Topic) : Option Str :=
  match l, t with
  | .english, .all_disciplines => some SPRINGER_CATALOG_EN_URL
  | .english, .emergency_nursing => none
  | .german, .all_disciplines => some SPRINGER_CATALOG_DE_URL
  | .german, .emergency_nursing => some SPRINGER_NURSING_CATALOG_DE_URL

/-- The static `urls["content"]` lookup (total: both formats registered). -/
def content_base_url : FileFormat → Str
  | .pdf => SPRINGER_PDF_URL
  | .epub => SPRINGER_EPUB_URL

/-- `Catalog.content_url`: base url for format + "/" + uid + "." + format. -/
def content_url (uid : Str) (f : FileFormat) : Str :=
  content_base_url f ++ '/' :: uid ++ '.' :: f.value

/-! ### Identity normalization (Catalog.dataframe, Catalog.ttable) -/

/-- Python `v.split("/")`: always returns a non-empty list of groups. -/
def splitSlash : Str → List Str
  | [] => [[]]
  | c :: rest =>
    match splitSlash rest with
    | [] => [[]]
    | g :: gs => if c = '/' then [] :: g :: gs else (c :: g) :: gs

/-- Python `"/".join(groups)`. -/
def joinSlash : List Str → Str
  | [] => []
  | [g] => g
  | g :: gs => g ++ '/' :: joinSlash gs

/-- `df["uid"] = df.doi_url.apply(lambda v: "/".join(v.split("/")[-2:]))`:
the last two slash-separated segments of the reference, joined by a slash. -/
def uid_of_reference (v : Str) : Str :=
  let parts := splitSlash v
  joinSlash (parts.drop (parts.length - 2))

/-- Python `string.punctuation` (32 ASCII characters; codepoints are used for
the apostrophe 39, backtick 96 and braces 123/125). -/
def pythonPunctuation : Str :=
  ['!', '\"', '#', '$', '%', '&', Char.ofNat 39, '(', ')', '*', '+', ',', '-',
   '.', '/', ':', ';', '<', '=', '>', '?', '@', '[', '\\', ']', '^', '_',
   Char.ofNat 96, Char.ofNat 123, '|', Char.ofNat 125, '~']

/-- Python `string.whitespace`. -/
def pythonWhitespace : Str := [' ', '\t', '\n', '\r', '\x0b', '\x0c']

/-- `Catalog.ttable`, built as a per-character replacement map: punctuation
goes to the empty string, whitespace to underscore, then the slash and
backslash entries are overridden to underscore, and the trademark (U+2122)
and registered (U+00AE) glyphs map to the empty string. -/
def ttable (c : Char) : Str :=
  if c = '/' ∨ c = '\\' then ['_']
  else if c = Char.ofNat 8482 ∨ c = Char.ofNat 174 then []
  else if pythonPunctuation.contains c then []
  else if pythonWhitespace.contains c then ['_']
  else [c]

/-- Python `s.translate(table)` for a per-character table. -/
def translate (table : Char → Str) (s : Str) : Str :=
  (s.map table).flatten

/-- `str.maketrans({"/": "-", ".": "-"})` used on the uid column. -/
def slash_and_dot_to_dash (c : Char) : Str :=
  if c = '/' ∨ c = '.' then ['-'] else [c]

/-- `df["filename"]`: title translated through `ttable`, concatenated with
"-" and the uid with slashes and dots replaced by dashes. -/
def filename_of (title uid : Str) : Str :=
  translate ttable title ++ '-' :: translate slash_and_dot_to_dash uid

/-! ### Catalog rows -/

/-- One raw data row of the cached catalog CSV, after column-name
normalization (package-name column already resolved). -/
structure RawRow where
  title : Str
  author : Str
  doi_url : Str
  package_name : Str
deriving DecidableEq

/-- One row of the normalized dataframe, with the derived uid and filename
columns added. -/
structure Textbook where
  title : Str
  author : Str
  doi_url : Str
  package_name : Str
  uid : Str
  filename : Str
deriving DecidableEq

def normalizeRow (r : RawRow) : Textbook :=
  { title := r.title
    author := r.author
    doi_url := r.doi_url
    package_name := r.package_name
    uid := uid_of_reference r.doi_url
    filename := filename_of r.title (uid_of_reference r.doi_url) }

/-- Lexicographic comparison of character lists (ascending). -/
def strLE : Str → Str → Bool
  | [], _ => true
  | _ :: _, [] => false
  | a :: as, b :: bs => if a = b then strLE as bs else decide (a < b)

/-- `sort_values(by=["title", "author"], ascending=[True, True])` key order. -/
def bookLE (x y : Textbook) : Bool :=
  if x.title = y.title then strLE x.author y.author else strLE x.title y.title

def insertSorted (t : Textbook) : List Textbook → List Textbook
  | [] => [t]
  | u :: us => if bookLE t u then t :: u :: us else u :: insertSorted t us

def sortBooks : List Textbook → List Textbook
  | [] => []
  | t :: ts => insertSorted t (sortBooks ts)

/-- `Catalog.dataframe` materialization from the cached rows: normalize each
row, then sort by (title, author) ascending. -/
def dataframe_of (rows : List RawRow) : List Textbook :=
  sortBooks (rows.map normalizeRow)

/-! ### Filesystem and HTTP models -/

inductive FsKind
  | file
  | dir
deriving DecidableEq

/-- The local filesystem: a finite map from paths to file kinds, as an
association list (first binding wins). -/
abbrev Fs := List (Str × FsKind)

def fsLookup (fs : Fs) (p : Str) : Option FsKind :=
  match fs.find? (fun kv => kv.fst == p) with
  | some kv => some kv.snd
  | none => none

def fsRemove (fs : Fs) (p : Str) : Fs := fs.filter (fun kv => kv.fst != p)

def fsWrite (fs : Fs) (p : Str) (k : FsKind) : Fs := (p, k) :: fsRemove fs p

/-- One element of a streamed response body: a chunk of bytes, or the point
at which the user hits the keyboard interrupt. -/
inductive BodyChunk
  | chunk (size : Nat)
  | interrupt
deriving DecidableEq

/-- A `requests` response: the status code and the streamed body.  Its
truthiness (`response.ok`) is status < 400. -/
structure HttpResponse where
  status : Nat
  body : List BodyChunk
deriving DecidableEq

def HttpResponse.ok (r : HttpResponse) : Bool := decide (r.status < 400)

/-- The network: a map from URLs to the response `requests.get` yields. -/
abbrev Net := Str → HttpResponse

/-- Does a body stream contain a user interrupt? -/
def hasInterrupt : List BodyChunk → Bool
  | [] => false
  | .chunk _ :: rest => hasInterrupt rest
  | .interrupt :: _ => true

/-- Total size streamed to disk; `none` when a user interrupt fires before
the stream completes. -/
def streamSize : List BodyChunk → Option Nat
  | [] => some 0
  | .chunk n :: rest => (streamSize rest).map (fun m => n + m)
  | .interrupt :: _ => none

/-- Observable actions of a download: log records (the loguru collaborator),
network GETs, file writes and unlinks. -/
inductive Event
  | logSkip (path : Str)
  | logFail (status : Nat) (url : Str)
  | logAbort (path : Str)
  | netGet (url : Str)
  | writeFile (path : Str) (size : Nat)
  | unlink (path : Str)
deriving DecidableEq

/-- `pathlib.Path.with_suffix`: replace the (possibly empty) suffix of the
final path component.  A lone leading dot marks a hidden file and is not a
suffix. -/
def with_suffix (name sfx : Str) : Str :=
  match name.reverse.dropWhile (fun c => c ≠ '.') with
  | [] => name ++ sfx
  | _ :: rest => if rest = [] then name ++ sfx else rest.reverse ++ sfx

/-- The local path `(dest / textbook.filename).with_suffix(file_format.suffix)`. -/
def target_path (dest : Str) (t : Textbook) (f : FileFormat) : Str :=
  dest ++ '/' :: with_suffix t.filename f.suffix

/-- Successful per-entry outcome: the event trace, the bytes written, and
the filesystem afterwards. -/
structure DlOk where
  events : List Event
  size : Nat
  fs : Fs
deriving DecidableEq

/-- A propagating `KeyboardInterrupt`: the event trace up to the abort and
the filesystem afterwards. -/
structure DlCancelled where
  events : List Event
  fs : Fs
deriving DecidableEq

/-- `Catalog.download_textbook`: skip existing targets unless overwriting,
log and return 0 on a non-success response, stream the body to the target
otherwise, and on a user interrupt unlink the partial file and re-raise. -/
def download_textbook (net : Net) (fs : Fs) (t : Textbook) (dest : Str)
    (f : FileFormat) (overwrite : Bool) : Except DlCancelled DlOk :=
  let path := target_path dest t f
  if !overwrite && (fsLookup fs path).isSome then
    .ok ⟨[.logSkip path], 0, fs⟩
  else
    let url := content_url t.uid f
    let response := net url
    if !response.ok then
      .ok ⟨[.netGet url, .logFail response.status url], 0, fs⟩
    else
      match streamSize response.body with
      | some n => .ok ⟨[.netGet url, .writeFile path n], n, fsWrite fs path .file⟩
      | none => .error ⟨[.netGet url, .unlink path, .logAbort path], fsRemove fs path⟩

/-- `Catalog.download_dataframe` (the animated variant runs the identical
loop): fold `download_textbook` over the rows, accumulating the event trace
and the total bytes written; a `KeyboardInterrupt` propagates and aborts the
remaining rows. -/
def download_dataframe (net : Net) (fs : Fs) (books : List Textbook)
    (dest : Str) (f : FileFormat) (overwrite : Bool) :
    Except DlCancelled (List Event × Nat × Fs) :=
  match books with
  | [] => .ok ([], 0, fs)
  | t :: rest =>
    match download_textbook net fs t dest f overwrite with
    | .error c => .error c
    | .ok r =>
      match download_dataframe net r.fs rest dest f overwrite with
      | .error c => .error ⟨r.events ++ c.events, c.fs⟩
      | .ok (evs, total, fs2) => .ok (r.events ++ evs, r.size + total, fs2)

/-! ### Filtered downloads (download_title, download_package) -/

def lowerStr (s : Str) : Str := s.map Char.toLower

def startsWithStr : Str → Str → Bool
  | _, [] => true
  | [], _ :: _ => false
  | c :: s, p :: ps => c == p && startsWithStr s ps

def containsSubStr : Str → Str → Bool
  | [], pat => pat.isEmpty
  | c :: rest, pat => startsWithStr (c :: rest) pat || containsSubStr rest pat

/-- `Series.str.contains(pat, case=False)` for a literal pattern:
case-insensitive substring containment. -/
def containsCI (s pat : Str) : Bool := containsSubStr (lowerStr s) (lowerStr pat)

/-- The `KeyError` raised when a title or package filter matches nothing
(the spec names these `NotFoundError`). -/
inductive MatchErr
  | noTitleMatch (pat : Str)
  | noPackageMatch (pat : Str)
deriving DecidableEq

/-- `Catalog.download_title`: filter by case-insensitive title containment;
an empty match raises before any download is attempted. -/
def download_title (net : Net) (fs : Fs) (books : List Textbook) (title : Str)
    (dest : Str) (f : FileFormat) (overwrite : Bool) :
    Except MatchErr (Except DlCancelled (List Event × Nat × Fs)) :=
  let df := books.filter (fun t => containsCI t.title title)
  if df.isEmpty then .error (.noTitleMatch title)
  else .ok (download_dataframe net fs df dest f overwrite)

/-- `Catalog.download_package`: filter by case-insensitive package-name
containment; an empty match raises before any download is attempted. -/
def download_package (net : Net) (fs : Fs) (books : List Textbook) (pkg : Str)
    (dest : Str) (f : FileFormat) (overwrite : Bool) :
    Except MatchErr (Except DlCancelled (List Event × Nat × Fs)) :=
  let df := books.filter (fun t => containsCI t.package_name pkg)
  if df.isEmpty then .error (.noPackageMatch pkg)
  else .ok (download_dataframe net fs df dest f overwrite)

/-! ### Catalog construction, cache state and defaults -/

/-- The `KeyError` raised by `Catalog.url` for unregistered identities
(the spec names it `UnknownCatalogError`). -/
inductive CatalogErr
  | unknownCatalog
deriving DecidableEq

/-- `Catalog.__init__` with `fetch=True`: when the cache file is absent the
catalog URL is resolved first and `fetch_catalog` performs one GET of it;
an unregistered identity raises before any network access (the returned
event list is the network trace of construction). -/
def catalog_init (l : Language) (t : Topic) (cacheExists : Bool) :
    Except CatalogErr (List Event) :=
  if cacheExists then .ok []
  else
    match catalogs_url_table l t with
    | none => .error .unknownCatalog
    | some u => .ok [.netGet u]

/-- The mutable state of one Catalog instance: the rows stored in the local
cache file, and the memoized `_dataframe` attribute when materialized. -/
structure CatalogState where
  cacheData : List RawRow
  memo : Option (List Textbook)
deriving DecidableEq

/-- `Catalog.fetch_catalog`: re-download the spreadsheet and overwrite the
cache file.  The memoized `_dataframe` attribute is left untouched. -/
def fetch_catalog (remote : List RawRow) (st : CatalogState) : CatalogState :=
  { st with cacheData := remote }

/-- The `Catalog.dataframe` property: return the memoized table when there
is one, otherwise materialize it from the cache file and memoize it. -/
def dataframe_access (st : CatalogState) : List Textbook × CatalogState :=
  match st.memo with
  | some df => (df, st)
  | none => (dataframe_of st.cacheData, { st with memo := some (dataframe_of st.cacheData) })

/-- `Language(value)`: the enum constructor by value string. -/
def Language.ofValue (s : Str) : Option Language :=
  if s = str "en" then some .english
  else if s = str "de" then some .german
  else none

/-- `Topic(value)`: the enum constructor by value string. -/
def Topic.ofValue (s : Str) : Option Topic :=
  if s = str "all" then some .all_disciplines
  else if s = str "med" then some .emergency_nursing
  else none

/-- `Catalog.defaults`: the TOML dictionary, or empty when the defaults file
is absent (`FileNotFoundError`). -/
def defaults_load (fileContents : Option (List (Str × Str))) : List (Str × Str) :=
  fileContents.getD []

/-- Python `dict.get(key, default)` over the loaded defaults. -/
def dict_get (d : List (Str × Str)) (key dflt : Str) : Str :=
  match d.find? (fun kv => kv.fst == key) with
  | some kv => kv.snd
  | none => dflt

/-- `self.language = language or Language(self.defaults.get("language", "en"))`. -/
def init_language (language : Option Language) (defaults : List (Str × Str)) :
    Option Language :=
  match language with
  | some l => some l
  | none => Language.ofValue (dict_get defaults (str "language") (str "en"))

/-- `self.topic = topic or Topic(self.defaults.get("topic", "all"))`. -/
def init_topic (topic : Option Topic) (defaults : List (Str × Str)) :
    Option Topic :=
  match topic with
  | some t => some t
  | none => Topic.ofValue (dict_get defaults (str "topic") (str "all"))

/-! ### Lemmas about slash splitting -/

theorem splitSlash_cons (c : Char) (rest : Str) :
    splitSlash (c :: rest) =
      match splitSlash rest with
      | [] => [[]]
      | g :: gs => if c = '/' then [] :: g :: gs else (c :: g) :: gs := rfl

theorem splitSlash_ne_nil (s : Str) : splitSlash s ≠ [] := by
  cases s with
  | nil => simp [splitSlash]
  | cons c rest =>
    rw [splitSlash_cons]
    cases h : splitSlash rest with
    | nil => simp
    | cons g gs => by_cases hc : c = '/' <;> simp [hc]

theorem splitSlash_append (xs ys : Str) :
    splitSlash (xs ++ '/' :: ys) = splitSlash xs ++ splitSlash ys := by
  induction xs with
  | nil =>
    show splitSlash ('/' :: ys) = splitSlash [] ++ splitSlash ys
    rw [splitSlash_cons]
    cases h : splitSlash ys with
    | nil => exact absurd h (splitSlash_ne_nil ys)
    | cons g gs => simp [splitSlash]
  | cons c cs ih =>
    show splitSlash (c :: (cs ++ '/' :: ys)) = splitSlash (c :: cs) ++ splitSlash ys
    rw [splitSlash_cons, splitSlash_cons, ih]
    cases h : splitSlash cs with
    | nil => exact absurd h (splitSlash_ne_nil cs)
    | cons g gs => by_cases hc : c = '/' <;> simp [hc]

theorem splitSlash_no_slash (s : Str) (h : '/' ∉ s) : splitSlash s = [s] := by
  induction s with
  | nil => rfl
  | cons c cs ih =>
    have hc : c ≠ '/' := fun e => h (e ▸ List.mem_cons_self c cs)
    have h2 : '/' ∉ cs := fun m => h (List.mem_cons_of_mem _ m)
    rw [splitSlash_cons, ih h2]
    simp [hc]

theorem joinSlash_splitSlash (v : Str) : joinSlash (splitSlash v) = v := by
  induction v with
  | nil => rfl
  | cons c cs ih =>
    rw [splitSlash_cons]
    cases h : splitSlash cs with
    | nil => exact absurd h (splitSlash_ne_nil cs)
    | cons g gs =>
      rw [h] at ih
      by_cases hc : c = '/'
      · subst hc
        simpa [joinSlash] using ih
      · simp only [hc, if_false]
        cases gs with
        | nil =>
          simp only [joinSlash] at ih ⊢
          rw [ih]
        | cons g2 gs2 =>
          simp only [joinSlash, List.cons_append] at ih ⊢
          rw [← ih]

/-! ### Claim theorems: identity normalization -/

/-- C3: for every catalog row, the derived uid equals the last two
slash-separated segments of the row's doi_url joined by "/": both for a
reference with a longer leading part and for a bare two-segment reference,
provided the final two segments themselves contain no slash. -/
theorem c3_uid_last_two_segments (p a b : Str) (ha : '/' ∉ a) (hb : '/' ∉ b) :
    uid_of_reference (p ++ '/' :: (a ++ '/' :: b)) = a ++ '/' :: b
    ∧ uid_of_reference (a ++ '/' :: b) = a ++ '/' :: b := by
  have e2 : splitSlash (a ++ '/' :: b) = [a, b] := by
    rw [splitSlash_append, splitSlash_no_slash a ha, splitSlash_no_slash b hb]
    rfl
  constructor
  · show joinSlash ((splitSlash (p ++ '/' :: (a ++ '/' :: b))).drop
      ((splitSlash (p ++ '/' :: (a ++ '/' :: b))).length - 2)) = a ++ '/' :: b
    rw [splitSlash_append, e2]
    have hl : (splitSlash p ++ [a, b]).length - 2 = (splitSlash p).length := by
      simp
    rw [hl, List.drop_left]
    simp [joinSlash]
  · show joinSlash ((splitSlash (a ++ '/' :: b)).drop
      ((splitSlash (a ++ '/' :: b)).length - 2)) = a ++ '/' :: b
    rw [e2]
    simp [joinSlash]

/-- C3 witness: the spec's concrete example, a reference ending in
".../10.1007/abc-123". -/
theorem c3_uid_last_two_segments_witness :
    ('/' ∉ str "10.1007" ∧ '/' ∉ str "abc-123")
    ∧ uid_of_reference (str "https://x.org" ++ '/' ::
        (str "10.1007" ++ '/' :: str "abc-123")) = str "10.1007" ++ '/' :: str "abc-123" :=
  ⟨⟨by decide, by decide⟩,
   (c3_uid_last_two_segments (str "https://x.org") (str "10.1007") (str "abc-123")
     (by decide) (by decide)).1⟩

/-- C4: the filename is the title stripped through the translation table,
a dash, and the uid with slashes and dots replaced by dashes; the table
maps whitespace to underscore, the path separators "/" and "\" to
underscore, all other Python punctuation to the empty string, and the
trademark (U+2122) and registered (U+00AE) glyphs to the empty string.
Derivation is a pure function, hence identical across repeated calls. -/
theorem c4_filename_derivation (title uid : Str) (c : Char) :
    (filename_of title uid =
      translate ttable title ++ '-' :: translate slash_and_dot_to_dash uid)
    ∧ (c ∈ pythonWhitespace → ttable c = ['_'])
    ∧ (c = '/' ∨ c = '\\' → ttable c = ['_'])
    ∧ (c ∈ pythonPunctuation → c ≠ '/' → c ≠ '\\' → ttable c = [])
    ∧ (c = Char.ofNat 8482 ∨ c = Char.ofNat 174 → ttable c = [])
    ∧ slash_and_dot_to_dash '/' = ['-']
    ∧ slash_and_dot_to_dash '.' = ['-']
    ∧ (c ≠ '/' → c ≠ '.' → slash_and_dot_to_dash c = [c]) := by
  refine ⟨rfl, ?_, ?_, ?_, ?_, rfl, rfl, ?_⟩
  · intro h
    simp only [pythonWhitespace, List.mem_cons, List.not_mem_nil, or_false] at h
    rcases h with rfl | rfl | rfl | rfl | rfl | rfl <;> decide
  · rintro (rfl | rfl) <;> decide
  · intro h h1 h2
    simp only [pythonPunctuation, List.mem_cons, List.not_mem_nil, or_false] at h
    rcases h with rfl | rfl | rfl | rfl | rfl | rfl | rfl | rfl | rfl | rfl | rfl |
      rfl | rfl | rfl | rfl | rfl | rfl | rfl | rfl | rfl | rfl | rfl | rfl | rfl |
      rfl | rfl | rfl | rfl | rfl | rfl | rfl | rfl
    all_goals first
      | decide
      | exact absurd rfl h1
      | exact absurd rfl h2
  · rintro (rfl | rfl) <;> decide
  · intro h1 h2
    unfold slash_and_dot_to_dash
    simp [h1, h2]

/-- C4 witness: concrete evaluations of the filename derivation and of the
character table on representative characters. -/
theorem c4_filename_derivation_witness :
    filename_of (str "A Tale") (str "10.1007/x-1") =
      translate ttable (str "A Tale") ++ '-' ::
        translate slash_and_dot_to_dash (str "10.1007/x-1")
    ∧ ttable ' ' = ['_']
    ∧ ttable '/' = ['_']
    ∧ ttable ':' = []
    ∧ ttable (Char.ofNat 8482) = []
    ∧ slash_and_dot_to_dash '.' = ['-'] :=
  ⟨(c4_filename_derivation (str "A Tale") (str "10.1007/x-1") ' ').1,
   (c4_filename_derivation [] [] ' ').2.1 (by decide),
   (c4_filename_derivation [] [] '/').2.2.1 (Or.inl rfl),
   (c4_filename_derivation [] [] ':').2.2.2.1 (by decide) (by decide) (by decide),
   (c4_filename_derivation [] [] (Char.ofNat 8482)).2.2.2.2.1 (Or.inl rfl),
   (c4_filename_derivation [] [] ' ').2.2.2.2.2.2.1⟩

/-- C5 counterexample: a reference with a single slash-free segment ("abc",
fewer than two segments) is silently accepted by normalization — the row
normalizes to a textbook whose uid is the whole reference, and no error of
any kind is raised (normalization in the source is a total computation with
no `MalformedReferenceError`, which does not exist in the code). -/
theorem c5_counterexample :
    (splitSlash (str "abc")).length < 2
    ∧ uid_of_reference (str "abc") = str "abc"
    ∧ normalizeRow ⟨str "T", str "A", str "abc", str "P"⟩ =
        ⟨str "T", str "A", str "abc", str "P", str "abc", str "T-abc"⟩ := by
  decide

/-- C5 amended: a reference with fewer than two slash-separated segments is
not rejected; normalization silently accepts it and the derived uid is the
whole reference string. -/
theorem c5_short_reference_accepted (v : Str)
    (h : (splitSlash v).length < 2) : uid_of_reference v = v := by
  show joinSlash ((splitSlash v).drop ((splitSlash v).length - 2)) = v
  have h0 : (splitSlash v).length - 2 = 0 := by omega
  rw [h0, List.drop_zero, joinSlash_splitSlash]

/-- C5 amended witness: the single-segment reference "abc". -/
theorem c5_short_reference_accepted_witness :
    (splitSlash (str "abc")).length < 2 ∧ uid_of_reference (str "abc") = str "abc" :=
  ⟨by decide, c5_short_reference_accepted (str "abc") (by decide)⟩

/-- C10: constructing a Catalog with no explicit language or topic while the
defaults file is absent yields the built-in fallback identity: language
"en" (English) and topic "all" (All Disciplines). -/
theorem c10_default_identity :
    init_language none (defaults_load none) = some Language.english
    ∧ init_topic none (defaults_load none) = some Topic.all_disciplines
    ∧ Language.value .english = str "en"
    ∧ Topic.value .all_disciplines = str "all" := by
  decide

/-! ### Claim theorems: download orchestration -/

/-- C2: with `overwrite = false` and the computed target path already
present as a regular file, the per-entry download records a skip (the
trace holds the skip log record only — in particular no network GET),
returns 0 bytes written, and leaves the filesystem unchanged. -/
theorem c2_skip_existing (net : Net) (fs : Fs) (t : Textbook) (dest : Str)
    (f : FileFormat) (h : fsLookup fs (target_path dest t f) = some .file) :
    download_textbook net fs t dest f false =
      .ok ⟨[.logSkip (target_path dest t f)], 0, fs⟩ := by
  unfold download_textbook
  simp [h]

/-- C2 witness: a destination holding the computed target file. -/
theorem c2_skip_existing_witness :
    fsLookup [(str "d/T.pdf", FsKind.file)]
        (target_path (str "d") ⟨[], [], [], [], [], str "T"⟩ .pdf) = some .file
    ∧ download_textbook (fun _ => ⟨200, []⟩) [(str "d/T.pdf", FsKind.file)]
        ⟨[], [], [], [], [], str "T"⟩ (str "d") .pdf false =
      .ok ⟨[.logSkip (target_path (str "d") ⟨[], [], [], [], [], str "T"⟩ .pdf)], 0,
           [(str "d/T.pdf", FsKind.file)]⟩ :=
  ⟨by decide, c2_skip_existing _ _ _ _ _ (by decide)⟩

/-- C1: a non-success response makes the per-entry download log a failure
record (with the status code and URL), return 0 bytes, and leave the
filesystem unchanged, without raising; and prepending any non-cancelled
entry to a batch leaves the rest of the batch attempted, with the batch
total the sum of the entry's bytes and the rest's total (so failed entries
contribute 0 and never abort the batch). -/
theorem c1_failure_logged_batch_continues :
    (∀ (net : Net) (fs : Fs) (t : Textbook) (dest : Str) (f : FileFormat)
        (overwrite : Bool),
      (!overwrite && (fsLookup fs (target_path dest t f)).isSome) = false →
      (net (content_url t.uid f)).ok = false →
      download_textbook net fs t dest f overwrite =
        .ok ⟨[.netGet (content_url t.uid f),
              .logFail (net (content_url t.uid f)).status (content_url t.uid f)],
             0, fs⟩)
    ∧ (∀ (net : Net) (fs : Fs) (t : Textbook) (rest : List Textbook) (dest : Str)
        (f : FileFormat) (overwrite : Bool) (r : DlOk) (evs : List Event)
        (total : Nat) (fs2 : Fs),
      download_textbook net fs t dest f overwrite = .ok r →
      download_dataframe net r.fs rest dest f overwrite = .ok (evs, total, fs2) →
      download_dataframe net fs (t :: rest) dest f overwrite =
        .ok (r.events ++ evs, r.size + total, fs2)) := by
  constructor
  · intro net fs t dest f overwrite hskip hfail
    unfold download_textbook
    simp [hskip, hfail]
  · intro net fs t rest dest f overwrite r evs total fs2 h1 h2
    unfold download_dataframe
    rw [h1]
    dsimp only
    rw [h2]

/-- C1 witness: the spec's batch-fault-tolerance scenario in miniature — a
batch of two entries where the first entry's fetch yields status 404 and
the second succeeds with 7 bytes: the failure is logged, the second entry
is still downloaded, and the total is 0 + 7. -/
theorem c1_failure_logged_batch_continues_witness :
    download_textbook
        (fun u => if u = content_url (str "u2") .pdf then ⟨404, []⟩
                  else ⟨200, [.chunk 7]⟩)
        [] ⟨str "t2", [], [], [], str "u2", str "F2"⟩ (str "d") .pdf true =
      .ok ⟨[.netGet (content_url (str "u2") .pdf),
            .logFail 404 (content_url (str "u2") .pdf)], 0, []⟩
    ∧ download_dataframe
        (fun u => if u = content_url (str "u2") .pdf then ⟨404, []⟩
                  else ⟨200, [.chunk 7]⟩)
        [] [⟨str "t2", [], [], [], str "u2", str "F2"⟩,
            ⟨str "t3", [], [], [], str "u3", str "F3"⟩] (str "d") .pdf true =
      .ok ([.netGet (content_url (str "u2") .pdf),
            .logFail 404 (content_url (str "u2") .pdf)] ++
           [.netGet (content_url (str "u3") .pdf),
            .writeFile (target_path (str "d") ⟨str "t3", [], [], [], str "u3", str "F3"⟩ .pdf) 7],
           0 + 7,
           fsWrite [] (target_path (str "d") ⟨str "t3", [], [], [], str "u3", str "F3"⟩ .pdf) .file) := by
  have h1 := c1_failure_logged_batch_continues.1
      (fun u => if u = content_url (str "u2") .pdf then ⟨404, []⟩
                else ⟨200, [.chunk 7]⟩)
      [] ⟨str "t2", [], [], [], str "u2", str "F2"⟩ (str "d") .pdf true
      (by decide) (by decide)
  refine ⟨h1, ?_⟩
  exact c1_failure_logged_batch_continues.2
      (fun u => if u = content_url (str "u2") .pdf then ⟨404, []⟩
                else ⟨200, [.chunk 7]⟩)
      [] ⟨str "t2", [], [], [], str "u2", str "F2"⟩
      [⟨str "t3", [], [], [], str "u3", str "F3"⟩] (str "d") .pdf true
      ⟨[.netGet (content_url (str "u2") .pdf),
        .logFail 404 (content_url (str "u2") .pdf)], 0, []⟩
      _ _ _ h1 rfl

/-! ### Cancellation lemmas -/

theorem streamSize_isSome_of_no_interrupt (b : List BodyChunk)
    (h : hasInterrupt b = false) : ∃ n, streamSize b = some n := by
  induction b with
  | nil => exact ⟨0, rfl⟩
  | cons x rest ih =>
    cases x with
    | chunk n =>
      obtain ⟨m, hm⟩ := ih (by simpa [hasInterrupt] using h)
      exact ⟨n + m, by simp [streamSize, hm]⟩
    | interrupt => simp [hasInterrupt] at h

theorem download_textbook_ok_of_no_interrupt (net : Net) (fs : Fs) (t : Textbook)
    (dest : Str) (f : FileFormat) (overwrite : Bool)
    (h : hasInterrupt (net (content_url t.uid f)).body = false) :
    ∃ r, download_textbook net fs t dest f overwrite = .ok r := by
  unfold download_textbook
  by_cases hs : (!overwrite && (fsLookup fs (target_path dest t f)).isSome) = true
  · refine ⟨⟨[.logSkip (target_path dest t f)], 0, fs⟩, ?_⟩
    simp [hs]
  · rw [Bool.not_eq_true] at hs
    by_cases hr : (net (content_url t.uid f)).ok = true
    · obtain ⟨n, hn⟩ := streamSize_isSome_of_no_interrupt _ h
      refine ⟨⟨[.netGet (content_url t.uid f), .writeFile (target_path dest t f) n],
        n, fsWrite fs (target_path dest t f) .file⟩, ?_⟩
      simp [hs, hr, hn]
    · rw [Bool.not_eq_true] at hr
      refine ⟨⟨[.netGet (content_url t.uid f),
        .logFail (net (content_url t.uid f)).status (content_url t.uid f)], 0, fs⟩, ?_⟩
      simp [hs, hr]

/-- C8: when the stream of an entry that reached fetching is interrupted by
the user, the per-entry download removes the partially-written target (the
unlink event precedes the propagation, and the file is absent afterwards)
and propagates the cancellation; a cancelled entry aborts the whole
remaining batch; and cancellation is the only aborting condition — with no
interrupt in any response stream the batch always completes normally. -/
theorem c8_cancellation_cleanup_and_abort :
    (∀ (net : Net) (fs : Fs) (t : Textbook) (dest : Str) (f : FileFormat)
        (overwrite : Bool),
      (!overwrite && (fsLookup fs (target_path dest t f)).isSome) = false →
      (net (content_url t.uid f)).ok = true →
      streamSize (net (content_url t.uid f)).body = none →
      download_textbook net fs t dest f overwrite =
        .error ⟨[.netGet (content_url t.uid f), .unlink (target_path dest t f),
                 .logAbort (target_path dest t f)],
                fsRemove fs (target_path dest t f)⟩)
    ∧ (∀ (fs : Fs) (p : Str), fsLookup (fsRemove fs p) p = none)
    ∧ (∀ (net : Net) (fs : Fs) (t : Textbook) (rest : List Textbook) (dest : Str)
        (f : FileFormat) (overwrite : Bool) (c : DlCancelled),
      download_textbook net fs t dest f overwrite = .error c →
      download_dataframe net fs (t :: rest) dest f overwrite = .error c)
    ∧ (∀ (net : Net), (∀ u, hasInterrupt (net u).body = false) →
      ∀ (fs : Fs) (books : List Textbook) (dest : Str) (f : FileFormat)
        (overwrite : Bool),
      ∃ out, download_dataframe net fs books dest f overwrite = .ok out) := by
  refine ⟨?_, ?_, ?_, ?_⟩
  · intro net fs t dest f overwrite hskip hok hcancel
    unfold download_textbook
    simp [hskip, hok, hcancel]
  · intro fs p
    induction fs with
    | nil => rfl
    | cons kv rest ih =>
      by_cases h : kv.fst = p
      · simpa [fsRemove, fsLookup, h] using ih
      · simpa [fsRemove, fsLookup, h] using ih
  · intro net fs t rest dest f overwrite c h
    unfold download_dataframe
    rw [h]
  · intro net hni fs books dest f overwrite
    induction books generalizing fs with
    | nil => exact ⟨([], 0, fs), rfl⟩
    | cons t rest ih =>
      obtain ⟨r, hr⟩ :=
        download_textbook_ok_of_no_interrupt net fs t dest f overwrite (hni _)
      obtain ⟨⟨evs, total, fs2⟩, hout⟩ := ih r.fs
      refine ⟨(r.events ++ evs, r.size + total, fs2), ?_⟩
      unfold download_dataframe
      rw [hr]
      dsimp only
      rw [hout]

/-- C8 witness: a stream interrupted after 3 of its bytes — the partial
file is unlinked and the batch of two entries aborts with just that trace;
an interrupt-free network always lets a batch finish. -/
theorem c8_cancellation_cleanup_and_abort_witness :
    download_textbook (fun _ => ⟨200, [.chunk 3, .interrupt]⟩)
        [] ⟨[], [], [], [], str "u", str "F"⟩ (str "d") .pdf true =
      .error ⟨[.netGet (content_url (str "u") .pdf),
               .unlink (target_path (str "d") ⟨[], [], [], [], str "u", str "F"⟩ .pdf),
               .logAbort (target_path (str "d") ⟨[], [], [], [], str "u", str "F"⟩ .pdf)],
              fsRemove [] (target_path (str "d") ⟨[], [], [], [], str "u", str "F"⟩ .pdf)⟩
    ∧ fsLookup (fsRemove [(str "q", FsKind.file)] (str "q")) (str "q") = none
    ∧ download_dataframe (fun _ => ⟨200, [.chunk 3, .interrupt]⟩)
        [] [⟨[], [], [], [], str "u", str "F"⟩, ⟨[], [], [], [], str "u3", str "F3"⟩]
        (str "d") .pdf true =
      .error ⟨[.netGet (content_url (str "u") .pdf),
               .unlink (target_path (str "d") ⟨[], [], [], [], str "u", str "F"⟩ .pdf),
               .logAbort (target_path (str "d") ⟨[], [], [], [], str "u", str "F"⟩ .pdf)],
              fsRemove [] (target_path (str "d") ⟨[], [], [], [], str "u", str "F"⟩ .pdf)⟩
    ∧ ∃ out, download_dataframe (fun _ => ⟨200, [.chunk 5]⟩)
        [] [⟨[], [], [], [], str "u", str "F"⟩] (str "d") .pdf true = .ok out := by
  have h1 := c8_cancellation_cleanup_and_abort.1
      (fun _ => ⟨200, [.chunk 3, .interrupt]⟩)
      [] ⟨[], [], [], [], str "u", str "F"⟩ (str "d") .pdf true
      (by decide) (by decide) (by decide)
  refine ⟨h1, c8_cancellation_cleanup_and_abort.2.1 [(str "q", FsKind.file)] (str "q"),
    c8_cancellation_cleanup_and_abort.2.2.1
      (fun _ => ⟨200, [.chunk 3, .interrupt]⟩)
      [] ⟨[], [], [], [], str "u", str "F"⟩ [⟨[], [], [], [], str "u3", str "F3"⟩]
      (str "d") .pdf true _ h1,
    c8_cancellation_cleanup_and_abort.2.2.2
      (fun _ => ⟨200, [.chunk 5]⟩) (fun _ => rfl)
      [] [⟨[], [], [], [], str "u", str "F"⟩] (str "d") .pdf true⟩

/-- C6: a title or package pattern whose case-insensitive containment
filter over the table matches no entry makes the named-target download
fail with the not-found error before any download (hence no network
request), while a pattern matching at least one entry downloads exactly
the matching subset. -/
theorem c6_empty_match_rejected :
    (∀ (net : Net) (fs : Fs) (books : List Textbook) (pat dest : Str)
        (f : FileFormat) (overwrite : Bool),
      (books.filter (fun t => containsCI t.title pat) = [] →
        download_title net fs books pat dest f overwrite =
          .error (.noTitleMatch pat))
      ∧ (books.filter (fun t => containsCI t.title pat) ≠ [] →
        download_title net fs books pat dest f overwrite =
          .ok (download_dataframe net fs
            (books.filter (fun t => containsCI t.title pat)) dest f overwrite)))
    ∧ (∀ (net : Net) (fs : Fs) (books : List Textbook) (pat dest : Str)
        (f : FileFormat) (overwrite : Bool),
      (books.filter (fun t => containsCI t.package_name pat) = [] →
        download_package net fs books pat dest f overwrite =
          .error (.noPackageMatch pat))
      ∧ (books.filter (fun t => containsCI t.package_name pat) ≠ [] →
        download_package net fs books pat dest f overwrite =
          .ok (download_dataframe net fs
            (books.filter (fun t => containsCI t.package_name pat)) dest f overwrite))) := by
  constructor
  · intro net fs books pat dest f overwrite
    constructor
    · intro h
      unfold download_title
      simp [h]
    · intro h
      unfold download_title
      simp [List.isEmpty_iff, h]
  · intro net fs books pat dest f overwrite
    constructor
    · intro h
      unfold download_package
      simp [h]
    · intro h
      unfold download_package
      simp [List.isEmpty_iff, h]

/-- C6 witness: over a one-book table, the pattern "zzz" matches nothing
and is rejected; the pattern "MATH" matches the title case-insensitively
and downloads exactly that subset. -/
theorem c6_empty_match_rejected_witness :
    download_title (fun _ => ⟨200, []⟩) []
        [⟨str "Fun with Math", [], [], str "Stats Pack", str "u", str "F"⟩]
        (str "zzz") (str "d") .pdf true = .error (.noTitleMatch (str "zzz"))
    ∧ download_title (fun _ => ⟨200, []⟩) []
        [⟨str "Fun with Math", [], [], str "Stats Pack", str "u", str "F"⟩]
        (str "MATH") (str "d") .pdf true =
      .ok (download_dataframe (fun _ => ⟨200, []⟩) []
        ([⟨str "Fun with Math", [], [], str "Stats Pack", str "u", str "F"⟩].filter
          (fun t => containsCI t.title (str "MATH"))) (str "d") .pdf true)
    ∧ download_package (fun _ => ⟨200, []⟩) []
        [⟨str "Fun with Math", [], [], str "Stats Pack", str "u", str "F"⟩]
        (str "zzz") (str "d") .pdf true = .error (.noPackageMatch (str "zzz")) :=
  ⟨((c6_empty_match_rejected.1 _ _ _ _ _ _ _).1 (by decide)),
   ((c6_empty_match_rejected.1 _ _ _ _ _ _ _).2 (by decide)),
   ((c6_empty_match_rejected.2 _ _ _ _ _ _ _).1 (by decide))⟩

/-- C7: a (language, topic) pair absent from the static source-URL table
makes catalog construction fail with the unknown-catalog error with an
empty network trace (no network access), while every registered pair
resolves to its statically configured URL; the table registers exactly
(en, all), (de, all) and (de, med), and (en, med) is absent. -/
theorem c7_unknown_catalog_rejected :
    (∀ (l : Language) (t : Topic), catalogs_url_table l t = none →
      catalog_init l t false = .error .unknownCatalog)
    ∧ (∀ (l : Language) (t : Topic) (u : Str), catalogs_url_table l t = some u →
      catalog_init l t false = .ok [.netGet u])
    ∧ catalogs_url_table .english .emergency_nursing = none
    ∧ catalogs_url_table .english .all_disciplines = some SPRINGER_CATALOG_EN_URL
    ∧ catalogs_url_table .german .all_disciplines = some SPRINGER_CATALOG_DE_URL
    ∧ catalogs_url_table .german .emergency_nursing =
        some SPRINGER_NURSING_CATALOG_DE_URL := by
  refine ⟨?_, ?_, rfl, rfl, rfl, rfl⟩
  · intro l t h
    unfold catalog_init
    simp [h]
  · intro l t u h
    unfold catalog_init
    simp [h]

/-- C7 witness: the unregistered pair (English, Emergency Nursing). -/
theorem c7_unknown_catalog_rejected_witness :
    catalogs_url_table .english .emergency_nursing = none
    ∧ catalog_init .english .emergency_nursing false = .error .unknownCatalog :=
  ⟨rfl, c7_unknown_catalog_rejected.1 .english .emergency_nursing rfl⟩

/-- C9 counterexample: an instance whose table was materialized from the
old cache contents keeps returning that table after `fetch_catalog`
replaces the cache with different data — the claimed invalidation does not
happen, and the stale table differs from the freshly-fetched one. -/
theorem c9_counterexample :
    (dataframe_access (fetch_catalog
        [⟨str "New", str "B", str "x/y", str "P"⟩]
        ⟨[⟨str "Old", str "A", str "v/w", str "P"⟩],
         some (dataframe_of [⟨str "Old", str "A", str "v/w", str "P"⟩])⟩)).fst
      = dataframe_of [⟨str "Old", str "A", str "v/w", str "P"⟩]
    ∧ dataframe_of [⟨str "Old", str "A", str "v/w", str "P"⟩]
      ≠ dataframe_of [⟨str "New", str "B", str "x/y", str "P"⟩] := by
  exact ⟨rfl, by decide⟩

/-- C9 amended: `fetch_catalog` replaces the cache contents but does not
invalidate a memoized in-memory table — after a fetch, an instance that
had materialized its table still returns the old table, and only an
instance that never materialized one reads the newly fetched data. -/
theorem c9_fetch_does_not_invalidate :
    (∀ (remote : List RawRow) (st : CatalogState) (df : List Textbook),
      st.memo = some df →
      (dataframe_access (fetch_catalog remote st)).fst = df)
    ∧ (∀ (remote : List RawRow) (st : CatalogState),
      st.memo = none →
      (dataframe_access (fetch_catalog remote st)).fst = dataframe_of remote) := by
  constructor
  · intro remote st df h
    unfold dataframe_access fetch_catalog
    simp [h]
  · intro remote st h
    unfold dataframe_access fetch_catalog
    simp [h]

/-- C9 amended witness: a memoized instance keeps its table across a fetch;
an unmaterialized instance reads the new rows. -/
theorem c9_fetch_does_not_invalidate_witness :
    (dataframe_access (fetch_catalog [⟨str "N", str "B", str "x/y", str "P"⟩]
        ⟨[], some []⟩)).fst = []
    ∧ (dataframe_access (fetch_catalog [⟨str "N", str "B", str "x/y", str "P"⟩]
        ⟨[], none⟩)).fst = dataframe_of [⟨str "N", str "B", str "x/y", str "P"⟩] :=
  ⟨c9_fetch_does_not_invalidate.1 _ _ _ rfl,
   c9_fetch_does_not_invalidate.2 _ _ rfl⟩

end Springer
